import Mathlib

/-!
Verification of the medical-scribe transcription service.

The development shallowly embeds the Python modules of the repository:

* `app/services/transcription.py` — the `transcribe` coroutine: empty-input
  check, remote call outcome handling, response validation, word extraction,
  and the speaker-diarization grouping loop;
* `app/api.py` — `FileStorageStrategy` (`save_audio`, `save_transcript`,
  `read_transcripts`), `AudioProcessingFacade.process_audio`,
  `NotesGenerator.generate_notes`, and the `GET /notes/` handler `get_notes`;
* `app/prompts.py` — `Prompts.get_prompt_v1`.

Remote services (the Deepgram speech API and the OpenAI chat API) are
modelled as explicit parameters: the single network interaction of
`transcribe` is a `NetOutcome` value describing what the remote call did,
and the LLM client is a function from prompt to result.  Speaker labels are
a type parameter `S` with decidable equality together with a rendering
function `rnd : S → String`, standing for the dynamically typed JSON value
in the `speaker` field and Python's string interpolation of it; a missing
speaker (`None` in Python) is `Option.none` and is rendered `"None"`,
exactly as Python's f-string renders it.
-/

set_option autoImplicit false

namespace MedScribe

/-! ## Word tokens (transcription.py)

One entry of the Deepgram `words` array.  Python reads
`word_info.get('speaker')` and
`word_info.get('punctuated_word', word_info.get('word', ''))`;
an absent key is `Option.none`. -/

structure WordInfo (S : Type) where
  speaker : Option S
  punctuated_word : Option String
  word : Option String
deriving DecidableEq

/-- `word_info.get('punctuated_word', word_info.get('word', ''))`:
the display text of a token prefers the punctuated form, then the raw
word, then the empty string. -/
def displayWord {S : Type} (word_info : WordInfo S) : String :=
  match word_info.punctuated_word with
  | some w => w
  | none =>
    match word_info.word with
    | some w => w
    | none => ""

/-- Python's f-string rendering of the speaker value: `None` prints as
`"None"`, a present label prints through `rnd`. -/
def speakerName {S : Type} (rnd : S → String) : Option S → String
  | none => "None"
  | some s => rnd s

/-- `f"Speaker {current_speaker}: {' '.join(current_sentence)}."` -/
def speakerSentence {S : Type} (rnd : S → String) (current_speaker : Option S)
    (current_sentence : List String) : String :=
  "Speaker " ++ speakerName rnd current_speaker ++ ": "
    ++ String.intercalate " " current_sentence ++ "."

/-- The grouping loop of `transcribe` (transcription.py lines 106–128),
with the loop state passed explicitly: `current_speaker` starts as `None`,
`current_sentence` and `diarised_sentences` start empty.  After the loop
the non-empty trailing sentence is flushed (lines 124–128). -/
def diariseLoop {S : Type} [DecidableEq S] (rnd : S → String) :
    List (WordInfo S) → Option S → List String → List String → List String
  | [], current_speaker, current_sentence, diarised_sentences =>
    if current_sentence ≠ [] then
      diarised_sentences ++ [speakerSentence rnd current_speaker current_sentence]
    else
      diarised_sentences
  | word_info :: rest, current_speaker, current_sentence, diarised_sentences =>
    let speaker := word_info.speaker
    let word := displayWord word_info
    if speaker ≠ current_speaker ∧ current_sentence ≠ [] then
      diariseLoop rnd rest speaker [word]
        (diarised_sentences ++ [speakerSentence rnd current_speaker current_sentence])
    else
      diariseLoop rnd rest speaker (current_sentence ++ [word]) diarised_sentences

/-- `transcript = " ".join(diarised_sentences)` (transcription.py line 131),
applied to the grouping loop's output. -/
def diariseTranscript {S : Type} [DecidableEq S] (rnd : S → String)
    (words : List (WordInfo S)) : String :=
  String.intercalate " " (diariseLoop rnd words none [] [])

/-! The same loop kept at the level of `(speaker, run of display texts)`
pairs, before each flushed run is formatted into its sentence string.
`runsLoop` flushes exactly when `diariseLoop` does; the lemma
`diariseLoop_eq_map_runsLoop` below ties the two together. -/

def runsLoop {S : Type} [DecidableEq S] :
    List (WordInfo S) → Option S → List String → List (Option S × List String) →
      List (Option S × List String)
  | [], current_speaker, current_sentence, acc =>
    if current_sentence ≠ [] then acc ++ [(current_speaker, current_sentence)] else acc
  | word_info :: rest, current_speaker, current_sentence, acc =>
    if word_info.speaker ≠ current_speaker ∧ current_sentence ≠ [] then
      runsLoop rest word_info.speaker [displayWord word_info]
        (acc ++ [(current_speaker, current_sentence)])
    else
      runsLoop rest word_info.speaker (current_sentence ++ [displayWord word_info]) acc

/-- The speaker runs produced by one grouping pass over a token sequence. -/
def speakerRuns {S : Type} [DecidableEq S] (words : List (WordInfo S)) :
    List (Option S × List String) :=
  runsLoop words none [] []

theorem diariseLoop_eq_map_runsLoop {S : Type} [DecidableEq S] (rnd : S → String)
    (words : List (WordInfo S)) :
    ∀ (cs : Option S) (sent : List String) (acc : List (Option S × List String)),
      diariseLoop rnd words cs sent (acc.map (fun p => speakerSentence rnd p.1 p.2))
        = (runsLoop words cs sent acc).map (fun p => speakerSentence rnd p.1 p.2) := by
  induction words with
  | nil =>
    intro cs sent acc
    by_cases h : sent = [] <;> simp [diariseLoop, runsLoop, h]
  | cons w rest ih =>
    intro cs sent acc
    by_cases h : w.speaker ≠ cs ∧ sent ≠ []
    · have := ih w.speaker [displayWord w] (acc ++ [(cs, sent)])
      simpa [diariseLoop, runsLoop, h] using this
    · have := ih w.speaker (sent ++ [displayWord w]) acc
      simpa [diariseLoop, runsLoop, h] using this

theorem diariseTranscript_eq_runs {S : Type} [DecidableEq S] (rnd : S → String)
    (words : List (WordInfo S)) :
    diariseTranscript rnd words
      = String.intercalate " "
          ((speakerRuns words).map (fun p => speakerSentence rnd p.1 p.2)) := by
  have h := diariseLoop_eq_map_runsLoop rnd words none [] []
  simp only [List.map_nil] at h
  rw [diariseTranscript, speakerRuns, h]

/-! ## Spec-side reference grouping (spec §4.1, algorithm steps 4–6)

A second definition transcribed from the specification's words, to be
compared with the source-derived `diariseTranscript`.  The spec walks the
tokens once with `current_speaker` initially undefined and `current_run`
initially empty; the undefined/missing speaker state is one comparable
value, so it is the same `Option S` as a token's missing speaker. -/

/-- Spec wording: the token's display text prefers a punctuated form if
present, else raw text (else empty). -/
def specDisplayText {S : Type} (tok : WordInfo S) : String :=
  match tok.punctuated_word with
  | some w => w
  | none => (tok.word).getD ""

/-- Spec wording: a flushed run becomes the SpeakerUtterance
`"Speaker {id}: {joined words}."`, the missing id rendering as `None`. -/
def specUtterance {S : Type} (rnd : S → String) (id? : Option S)
    (run : List String) : String :=
  "Speaker " ++ (match id? with | none => "None" | some s => rnd s)
    ++ ": " ++ String.intercalate " " run ++ "."

/-- Spec wording, steps 4–5: for each token, if its speaker differs from
`current_speaker` and `current_run` is non-empty, flush the run tagged with
`current_speaker` and start a fresh run; always set `current_speaker` to
the token's speaker and append the token's display text to the run; after
the loop flush the non-empty trailing run. -/
def specWalk {S : Type} [DecidableEq S] (rnd : S → String) :
    List (WordInfo S) → Option S → List String → List String
  | [], current_speaker, current_run =>
    if current_run ≠ [] then [specUtterance rnd current_speaker current_run] else []
  | tok :: toks, current_speaker, current_run =>
    if tok.speaker ≠ current_speaker ∧ current_run ≠ [] then
      specUtterance rnd current_speaker current_run
        :: specWalk rnd toks tok.speaker [specDisplayText tok]
    else
      specWalk rnd toks tok.speaker (current_run ++ [specDisplayText tok])

/-- Spec wording, step 6: join all SpeakerUtterances with single spaces. -/
def specTranscript {S : Type} [DecidableEq S] (rnd : S → String)
    (tokens : List (WordInfo S)) : String :=
  String.intercalate " " (specWalk rnd tokens none [])

theorem specDisplayText_eq_displayWord {S : Type} (tok : WordInfo S) :
    specDisplayText tok = displayWord tok := by
  cases h : tok.punctuated_word <;> cases h2 : tok.word <;>
    simp [specDisplayText, displayWord, h, h2, Option.getD]

theorem specUtterance_eq_speakerSentence {S : Type} (rnd : S → String)
    (id? : Option S) (run : List String) :
    specUtterance rnd id? run = speakerSentence rnd id? run := by
  cases id? <;> simp [specUtterance, speakerSentence, speakerName]

theorem diariseLoop_eq_append_specWalk {S : Type} [DecidableEq S] (rnd : S → String)
    (words : List (WordInfo S)) :
    ∀ (cs : Option S) (sent acc : List String),
      diariseLoop rnd words cs sent acc = acc ++ specWalk rnd words cs sent := by
  induction words with
  | nil =>
    intro cs sent acc
    by_cases h : sent = [] <;>
      simp [diariseLoop, specWalk, h, specUtterance_eq_speakerSentence]
  | cons w rest ih =>
    intro cs sent acc
    by_cases h : w.speaker ≠ cs ∧ sent ≠ []
    · simp [diariseLoop, specWalk, h, ih, specUtterance_eq_speakerSentence,
        specDisplayText_eq_displayWord]
    · simp [diariseLoop, specWalk, h, ih, specDisplayText_eq_displayWord]

/-- The source grouping and the spec's reference grouping agree on every
token sequence. -/
theorem diariseTranscript_eq_specTranscript {S : Type} [DecidableEq S]
    (rnd : S → String) (words : List (WordInfo S)) :
    diariseTranscript rnd words = specTranscript rnd words := by
  rw [diariseTranscript, specTranscript, diariseLoop_eq_append_specWalk]
  simp

/-! Concrete token sequences from the spec's worked examples. -/

/-- Tokens `[{A,"Hi"},{A,"there"},{B,"Hello"}]` with string speaker labels. -/
def exampleTokensAB : List (WordInfo String) :=
  [⟨some "A", none, some "Hi"⟩, ⟨some "A", none, some "there"⟩,
   ⟨some "B", none, some "Hello"⟩]

/-- The single token `{null,"Hi"}`: its speaker field is missing. -/
def exampleTokenNull : List (WordInfo String) :=
  [⟨none, none, some "Hi"⟩]

/-- C1: the grouping loop in `transcribe` computes the spec's reference
output on every token sequence — flush on speaker change when the run is
non-empty, flush the trailing run, render `"Speaker {id}: {joined words}."`,
join utterances with single spaces — and on the two worked examples yields
`"Speaker A: Hi there. Speaker B: Hello."` and `"Speaker None: Hi."`. -/
theorem grouping_matches_spec :
    (∀ (S : Type) [DecidableEq S] (rnd : S → String) (words : List (WordInfo S)),
        diariseTranscript rnd words = specTranscript rnd words)
      ∧ diariseTranscript (fun s => s) exampleTokensAB
          = "Speaker A: Hi there. Speaker B: Hello."
      ∧ diariseTranscript (fun s => s) exampleTokenNull = "Speaker None: Hi." := by
  refine ⟨fun S _ rnd words => diariseTranscript_eq_specTranscript rnd words, ?_, ?_⟩
  · rfl
  · rfl

/-! ## The partition invariant of the grouping loop -/

theorem runsLoop_flatten {S : Type} [DecidableEq S] (words : List (WordInfo S)) :
    ∀ (cs : Option S) (sent : List String) (acc : List (Option S × List String)),
      ((runsLoop words cs sent acc).map Prod.snd).flatten
        = ((acc.map Prod.snd).flatten ++ sent) ++ words.map displayWord := by
  induction words with
  | nil =>
    intro cs sent acc
    by_cases h : sent = [] <;> simp [runsLoop, h]
  | cons w rest ih =>
    intro cs sent acc
    by_cases h : w.speaker ≠ cs ∧ sent ≠ []
    · simp [runsLoop, h, ih]
    · simp [runsLoop, h, ih]

theorem runsLoop_mem_ne_nil {S : Type} [DecidableEq S] (words : List (WordInfo S)) :
    ∀ (cs : Option S) (sent : List String) (acc : List (Option S × List String)),
      (∀ p ∈ acc, p.2 ≠ []) →
      ∀ p ∈ runsLoop words cs sent acc, p.2 ≠ [] := by
  induction words with
  | nil =>
    intro cs sent acc hacc p hp
    by_cases h : sent = []
    · exact hacc p (by simpa [runsLoop, h] using hp)
    · rw [runsLoop, if_pos h] at hp
      rcases List.mem_append.mp hp with h1 | h1
      · exact hacc p h1
      · simp only [List.mem_singleton] at h1
        subst h1
        exact h
  | cons w rest ih =>
    intro cs sent acc hacc p hp
    by_cases h : w.speaker ≠ cs ∧ sent ≠ []
    · rw [runsLoop, if_pos h] at hp
      refine ih _ _ _ ?_ p hp
      intro q hq
      rcases List.mem_append.mp hq with h1 | h1
      · exact hacc q h1
      · simp only [List.mem_singleton] at h1
        subst h1
        exact h.2
    · rw [runsLoop, if_neg h] at hp
      exact ih _ _ _ hacc p hp

/-- C2: the speaker runs produced by the grouping loop partition the token
sequence — concatenating the runs (in order) gives back exactly the display
texts of the tokens in original input order, with no token dropped or
duplicated (empty-text tokens included), and every flushed run is
non-empty. -/
theorem grouping_partitions_tokens {S : Type} [DecidableEq S]
    (words : List (WordInfo S)) :
    ((speakerRuns words).map Prod.snd).flatten = words.map displayWord
      ∧ ∀ p ∈ speakerRuns words, p.2 ≠ [] := by
  constructor
  · simpa using runsLoop_flatten words none [] []
  · exact runsLoop_mem_ne_nil words none [] [] (by simp)

/-! ## The transcribe entry point (transcription.py lines 51–165)

The Deepgram response body, as far as `transcribe` inspects it.  Python
validates `results.get('results', {}).get('channels', [])`, so a missing
`results` or `channels` key behaves exactly like an empty channel list and
is modelled as `[]`.  A channel's missing `alternatives` key likewise
behaves like an empty list at the indexing step (`KeyError` and
`IndexError` reach the same handler); a missing `words` key is kept
explicit as `Option.none`. -/

structure DgAlternative (S : Type) where
  words : Option (List (WordInfo S))
deriving DecidableEq

structure DgChannel (S : Type) where
  alternatives : List (DgAlternative S)
deriving DecidableEq

structure DgResults (S : Type) where
  channels : List (DgChannel S)
deriving DecidableEq

/-- Outcome of the single `httpx` POST inside `transcribe`: the request
timed out, failed below the HTTP layer, or produced a response with a
status code, a body text, and the result of `response.json()` (an `error`
means the body was not parseable into the expected shape, carrying the
exception's message). -/
inductive NetOutcome (S : Type) where
  | timeout
  | httpError (msg : String)
  | response (status_code : Nat) (text : String) (body : Except String (DgResults S))

/-- `results['results']['channels'][0]['alternatives'][0]['words']`
(transcription.py line 100): indexing an empty list raises `IndexError`
(`"list index out of range"`), a missing `words` key raises
`KeyError("'words'")`; both are caught and turned into the extraction
failure message. -/
def extract_words {S : Type} (results : DgResults S) :
    Except String (List (WordInfo S)) :=
  match results.channels with
  | [] => .error "list index out of range"
  | channel :: _ =>
    match channel.alternatives with
    | [] => .error "list index out of range"
    | alt :: _ =>
      match alt.words with
      | some ws => .ok ws
      | none => .error "'words'"

/-- `transcribe(audio_data)` (transcription.py lines 51–165).  The audio is
the raw byte list; the remote call is the `net` parameter.  `raise_for_status`
raises `HTTPStatusError` exactly when the status code is outside 200–299,
dispatched to the specific messages of lines 150–157.  A
`DeepgramTranscriptionError` raised inside the `try` block (invalid
structure, word extraction) is itself caught by the final
`except Exception` handler (line 163) and re-wrapped with the
`"Transcription failed: "` message, while the empty-input error of
line 73 is raised before the `try` block and propagates unwrapped. -/
def transcribe {S : Type} [DecidableEq S] (rnd : S → String)
    (audio_data : List UInt8) (net : NetOutcome S) : Except String String :=
  if audio_data.isEmpty then .error "Audio data is empty"
  else
    match net with
    | .timeout => .error "Transcription request timed out"
    | .httpError msg => .error ("HTTP request failed: " ++ msg)
    | .response status_code text body =>
      if 200 ≤ status_code ∧ status_code < 300 then
        match body with
        | .error msg => .error ("Transcription failed: " ++ msg)
        | .ok results =>
          if results.channels.isEmpty then
            .error "Transcription failed: Invalid API response structure"
          else
            match extract_words results with
            | .error msg =>
              .error ("Transcription failed: Failed to extract words from response: " ++ msg)
            | .ok words => .ok (diariseTranscript rnd words)
      else
        if status_code = 401 then
          .error "Authentication failed. Check your API key."
        else if status_code = 400 then
          .error ("Bad request: " ++ text)
        else if status_code = 429 then
          .error "Rate limit exceeded. Try again later."
        else
          .error ("API request failed with status " ++ toString status_code)

/-- C5: on empty audio input `transcribe` fails with the empty-audio
`TranscriptionError` whatever the network would have answered — the error
is raised before the remote request, so no remote call can influence (or
be required for) the result. -/
theorem transcribe_empty_audio_no_network {S : Type} [DecidableEq S]
    (rnd : S → String) (net : NetOutcome S) :
    transcribe rnd [] net = Except.error "Audio data is empty" := by
  rfl

/-- C7: a 401 remote response and a 429 remote response both make
`transcribe` fail, with the authentication message for 401 and the
rate-limit message for 429, and the two surfaced errors are distinct. -/
theorem transcribe_distinguishes_401_429 {S : Type} [DecidableEq S]
    (rnd : S → String) (audio_data : List UInt8)
    (h : audio_data.isEmpty = false)
    (text₁ text₂ : String) (body₁ body₂ : Except String (DgResults S)) :
    transcribe rnd audio_data (.response 401 text₁ body₁)
        = Except.error "Authentication failed. Check your API key."
      ∧ transcribe rnd audio_data (.response 429 text₂ body₂)
        = Except.error "Rate limit exceeded. Try again later."
      ∧ ("Authentication failed. Check your API key." : String)
        ≠ "Rate limit exceeded. Try again later." := by
  refine ⟨?_, ?_, by decide⟩ <;> simp [transcribe, h]

theorem transcribe_distinguishes_401_429_witness :
    transcribe (fun n : Nat => toString n) [(0 : UInt8)]
        (.response 401 "" (Except.error ""))
        = Except.error "Authentication failed. Check your API key."
      ∧ transcribe (fun n : Nat => toString n) [(0 : UInt8)]
        (.response 429 "" (Except.error ""))
        = Except.error "Rate limit exceeded. Try again later."
      ∧ ("Authentication failed. Check your API key." : String)
        ≠ "Rate limit exceeded. Try again later." := by
  have h := transcribe_distinguishes_401_429 (S := Nat) (fun n => toString n)
    [(0 : UInt8)] rfl "" "" (Except.error "") (Except.error "")
  exact h

/-- C10: a well-formed successful remote response whose word array is
empty makes `transcribe` succeed with the empty transcript. -/
theorem transcribe_empty_words_ok {S : Type} [DecidableEq S]
    (rnd : S → String) (audio_data : List UInt8)
    (h : audio_data.isEmpty = false)
    (status_code : Nat) (hs : 200 ≤ status_code ∧ status_code < 300)
    (text : String) (results : DgResults S)
    (channel : DgChannel S) (restChannels : List (DgChannel S))
    (alt : DgAlternative S) (restAlts : List (DgAlternative S))
    (hc : results.channels = channel :: restChannels)
    (ha : channel.alternatives = alt :: restAlts)
    (hw : alt.words = some []) :
    transcribe rnd audio_data (.response status_code text (Except.ok results))
      = Except.ok "" := by
  simp only [transcribe, h, Bool.false_eq_true, if_false, if_pos hs, hc,
    List.isEmpty_cons, extract_words, ha, hw]
  rfl

theorem transcribe_empty_words_ok_witness :
    transcribe (fun n : Nat => toString n) [(0 : UInt8)]
        (.response 200 "" (Except.ok ⟨[⟨[⟨some ([] : List (WordInfo Nat))⟩]⟩]⟩))
      = Except.ok "" :=
  transcribe_empty_words_ok (fun n : Nat => toString n) [(0 : UInt8)] rfl 200
    (by decide) "" ⟨[⟨[⟨some []⟩]⟩]⟩ ⟨[⟨some []⟩]⟩ [] ⟨some []⟩ [] rfl rfl rfl

/-! ## The transcript store (api.py, FileStorageStrategy)

The backing file `transcripts.txt` is modelled as `Option String`: `none`
while the file does not exist yet, `some content` once it does.  Opening
in append mode creates the file, so `save_transcript` turns `none` into a
file holding just the new line. -/

/-- `save_transcript` (api.py lines 141–144): append `transcript + "\n"`
to the file, creating it if necessary. -/
def save_transcript (st : Option String) (transcript : String) : Option String :=
  some (st.getD "" ++ transcript ++ "\n")

/-- Python's `file.readlines()` on a text-mode file: split the (already
newline-translated) content after every `'\n'`, keeping the `'\n'` at the
end of each line; a final fragment not ended by a newline is also
returned; empty content gives no lines.  `acc` holds the characters of the
current line in reverse. -/
def readlinesAux : List Char → List Char → List String
  | [], acc => if acc = [] then [] else [String.mk acc.reverse]
  | c :: cs, acc =>
    if c = '\n' then String.mk (acc.reverse ++ ['\n']) :: readlinesAux cs []
    else readlinesAux cs (c :: acc)

/-- Universal-newline translation applied by reading a text-mode file
(`open(TRANSCRIPT_FILE, "r")` with the default `newline=None`): each
`"\r\n"` pair and each lone `'\r'` become one `'\n'`. -/
def universalNewlines : List Char → List Char
  | [] => []
  | [c] => if c = '\r' then ['\n'] else [c]
  | c :: c₂ :: cs =>
    if c = '\r' then
      if c₂ = '\n' then '\n' :: universalNewlines cs
      else '\n' :: universalNewlines (c₂ :: cs)
    else c :: universalNewlines (c₂ :: cs)

/-- Reading the whole file in text mode and splitting it into lines:
universal-newline translation followed by the `readlines` split.  (Writing
in text mode translates `'\n'` to `os.linesep`, which is `'\n'` itself on
the POSIX platform modelled here, so `save_transcript` needs no
translation step.) -/
def readlines (s : String) : List String :=
  readlinesAux (universalNewlines s.data) []

/-- `read_transcripts` (api.py lines 146–152): an absent file reads as the
empty list, otherwise `f.readlines()`. -/
def read_transcripts (st : Option String) : List String :=
  match st with
  | none => []
  | some content => readlines content

/-- C3 counterexample: appending the single transcript `"a"` to a fresh
store and reading back returns `["a\n"]`, not `["a"]` — `readlines` keeps
the newline that `save_transcript` appended, so the round-trip does not
return the transcripts unchanged. -/
theorem append_read_roundtrip_not_identity :
    read_transcripts (List.foldl save_transcript none ["a"]) ≠ ["a"] := by
  decide

theorem String.mk_data (s : String) : String.mk s.data = s := rfl

theorem readlinesAux_line (l : List Char) :
    ∀ (acc rest : List Char), '\n' ∉ l →
      readlinesAux (l ++ '\n' :: rest) acc
        = String.mk (acc.reverse ++ l ++ ['\n']) :: readlinesAux rest [] := by
  induction l with
  | nil =>
    intro acc rest _
    simp [readlinesAux]
  | cons c l ih =>
    intro acc rest hl
    have hc : c ≠ '\n' := fun h => hl (h ▸ List.mem_cons_self c l)
    have hl' : '\n' ∉ l := fun h => hl (List.mem_cons_of_mem c h)
    have step : readlinesAux ((c :: l) ++ '\n' :: rest) acc
        = readlinesAux (l ++ '\n' :: rest) (c :: acc) := by
      simp [readlinesAux, hc]
    rw [step, ih (c :: acc) rest hl']
    have harr : (c :: acc).reverse ++ l ++ ['\n'] = acc.reverse ++ (c :: l) ++ ['\n'] := by
      simp
    rw [harr]

/-- The pure content fold underlying repeated `save_transcript`. -/
theorem foldl_save_transcript_some (ts : List String) :
    ∀ (c : String), List.foldl save_transcript (some c) ts
      = some (List.foldl (fun c t => c ++ t ++ "\n") c ts) := by
  induction ts with
  | nil => intro c; rfl
  | cons t ts ih => intro c; simpa [save_transcript] using ih (c ++ t ++ "\n")

theorem foldl_content_data (ts : List String) :
    ∀ (c : String), (List.foldl (fun c t => c ++ t ++ "\n") c ts).data
      = c.data ++ (ts.map (fun t => t.data ++ ['\n'])).flatten := by
  induction ts with
  | nil => intro c; simp
  | cons t ts ih =>
    intro c
    simp only [List.foldl_cons, ih, List.map_cons, List.flatten_cons]
    simp [String.data_append]

theorem readlinesAux_flatten_lines (ts : List String)
    (h : ∀ t ∈ ts, '\n' ∉ t.data) :
    readlinesAux ((ts.map (fun t => t.data ++ ['\n'])).flatten) []
      = ts.map (fun t => t ++ "\n") := by
  induction ts with
  | nil => rfl
  | cons t ts ih =>
    have ht : '\n' ∉ t.data := h t (List.mem_cons_self t ts)
    have hts : ∀ u ∈ ts, '\n' ∉ u.data := fun u hu => h u (List.mem_cons_of_mem t hu)
    have harr : (((t :: ts).map (fun t => t.data ++ ['\n'])).flatten : List Char)
        = t.data ++ '\n' :: ((ts.map (fun t => t.data ++ ['\n'])).flatten) := by
      simp
    rw [harr, readlinesAux_line t.data [] _ ht, ih hts]
    have : String.mk (t.data ++ ['\n']) = t ++ "\n" := by
      have : (t ++ "\n").data = t.data ++ ['\n'] := String.data_append t "\n"
      rw [← this, String.mk_data]
    simp [this]

theorem universalNewlines_no_cr (l : List Char) (h : '\r' ∉ l) :
    universalNewlines l = l := by
  induction l with
  | nil => rfl
  | cons c cs ih =>
    have hc : c ≠ '\r' := fun he => h (he ▸ List.mem_cons_self c cs)
    have hcs : '\r' ∉ cs := fun he => h (List.mem_cons_of_mem c he)
    cases cs with
    | nil => simp [universalNewlines, hc]
    | cons c₂ cs' => simp [universalNewlines, hc, ih hcs]

/-- C3 amended: appending `N` transcripts, none of which contains a newline
or a carriage-return character, and then reading the store back returns
exactly `N` strings in append order, each being the corresponding
transcript with one `"\n"` appended. -/
theorem append_read_roundtrip_newline_terminated (ts : List String)
    (h : ∀ t ∈ ts, '\n' ∉ t.data ∧ '\r' ∉ t.data) :
    read_transcripts (List.foldl save_transcript none ts)
      = ts.map (fun t => t ++ "\n") := by
  cases ts with
  | nil => rfl
  | cons t ts =>
    have hn : ∀ u ∈ t :: ts, '\n' ∉ u.data := fun u hu => (h u hu).1
    have hr : ∀ u ∈ t :: ts, '\r' ∉ u.data := fun u hu => (h u hu).2
    have h0 : save_transcript none t = some ("" ++ t ++ "\n") := rfl
    rw [List.foldl_cons, h0, foldl_save_transcript_some, read_transcripts, readlines,
      foldl_content_data]
    have hdata : ("" ++ t ++ "\n").data = [] ++ (t.data ++ ['\n']) := by
      simp [String.data_append]
    rw [hdata]
    have hflat : ([] ++ (t.data ++ ['\n'])) ++ ((ts.map (fun t => t.data ++ ['\n'])).flatten)
        = (((t :: ts).map (fun t => t.data ++ ['\n'])).flatten) := by
      simp
    rw [hflat]
    have hcr : '\r' ∉ (((t :: ts).map (fun t => t.data ++ ['\n'])).flatten) := by
      intro hmem
      rcases List.mem_flatten.mp hmem with ⟨l, hl, hcl⟩
      rcases List.mem_map.mp hl with ⟨u, hu, rfl⟩
      rcases List.mem_append.mp hcl with h1 | h1
      · exact hr u hu h1
      · exact absurd (List.mem_singleton.mp h1) (by decide)
    rw [universalNewlines_no_cr _ hcr, readlinesAux_flatten_lines (t :: ts) hn]

theorem append_read_roundtrip_newline_terminated_witness :
    read_transcripts (List.foldl save_transcript none ["a", "b"])
      = ["a\n", "b\n"] := by
  have h : ∀ t ∈ (["a", "b"] : List String), '\n' ∉ t.data ∧ '\r' ∉ t.data := by
    decide
  simpa using append_read_roundtrip_newline_terminated ["a", "b"] h

/-! ## The prompt builder (prompts.py, Prompts.get_prompt_v1)

`get_prompt_v1` is one Python f-string: a fixed instructional template with
two worked examples, with `{transcript}` interpolated once.  The argument
is the transcript list, so the interpolation renders Python's `str()` of a
list of strings: the elements' `repr`s joined by `", "` inside square
brackets.  `promptHead` and `promptTail` are the template's literal text
before and after the interpolation point, byte for byte. -/

def promptHead : String :=
  "\n        You are a clinical documentation specialist AI. Your task is to extract relevant clinical information from a conversation transcript between a patient and a healthcare provider and write a comprehensive and structured SOAP (Subjective, Objective, Assessment, Plan) note.\n        \n        The transcript will contain back-and-forth dialogues. Assume one of the Speaker is a Doctor and the other is a Patient. Your goal is to **identify the key clinical information** using logical reasoning, and structure it into the SOAP format.\n        \n        ---\n        Follow this chain of thought:\n        1. First, **identify the main complaint or condition** being discussed.\n        2. Extract and paraphrase the **subjective information** shared by the patient – including symptoms, severity, duration, lifestyle, past medical history, medications, and social factors.\n        3. Extract the **objective findings** mentioned by the doctor – this may include vitals, physical exams, diagnostic tests, and lab results.\n        4. Based on both subjective and objective data, **form a clinical assessment** – including possible diagnoses, their likelihood, and reasoning.\n        5. Propose a **treatment or care plan** that aligns with the doctor’s advice and patient needs.\n        \n        Your output should be concise, medically coherent, and use clear clinical language. Do not copy verbatim from the transcript.\n        \n        ---\n        Here are a few example transcripts and the corresponding SOAP notes:\n        \n        Example 1:\n        \n        Transcript:\n        Doctor: What brings you in today?\n        Patient: I've had a sore throat and fever for the last 3 days. It’s hard to swallow.\n        Doctor: Have you had any cough or runny nose?\n        Patient: Not really, just the sore throat and a mild headache.\n        Doctor: Your throat looks red and inflamed. I’ll do a rapid strep test.\n        \n        SOAP:\n        S: Patient reports sore throat, fever, and difficulty swallowing for 3 days. Also reports mild headache, no cough or nasal symptoms.\n        O: Throat appears red and inflamed on examination. Rapid strep test ordered.\n        A: Suspected streptococcal pharyngitis.\n        P: Start antibiotics if rapid strep is positive. Recommend rest, hydration, and analgesics like acetaminophen for symptom relief.\n        \n        ---\n        \n        Example 2:\n        \n        Transcript:\n        Doctor: How have your sugar levels been?\n        Patient: Quite high. My fasting glucose this week was 160 mg/dL.\n        Doctor: Any changes to your diet or medication?\n        Patient: I’ve been skipping my morning insulin dose sometimes.\n        \n        SOAP:\n        S: Patient reports elevated fasting glucose readings (160 mg/dL). Admits to occasionally skipping morning insulin dose.\n        O: Self-reported blood glucose levels. No new labs done today.\n        A: Poor glycemic control likely due to medication non-adherence.\n        P: Reinforce importance of insulin adherence. Consider diabetes educator referral. Schedule follow-up in 1 week.\n        \n        ---\n        \n        Now, using the same format and reasoning, generate a SOAP note for the following transcript:\n        \n        [Insert Transcript Here]\n\n        transcripts : <"

def promptTail : String :=
  ">\n\n        "

def singleQuoteChar : Char := Char.ofNat 39

def doubleQuoteChar : Char := Char.ofNat 34

/-- Python `repr` escaping of one character inside a string literal using
`quote` as the delimiter (the `\xNN` escaping of other non-printable
characters is not needed for any input considered here). -/
def pyCharEscape (quote c : Char) : List Char :=
  if c = '\\' then ['\\', '\\']
  else if c = quote then ['\\', quote]
  else if c = '\n' then ['\\', 'n']
  else if c = '\r' then ['\\', 'r']
  else if c = '\t' then ['\\', 't']
  else [c]

/-- Python `repr` of a string: single-quoted, unless the string contains a
single quote and no double quote, in which case it is double-quoted. -/
def pyStrRepr (s : String) : String :=
  let quote :=
    if singleQuoteChar ∈ s.data ∧ ¬ doubleQuoteChar ∈ s.data then doubleQuoteChar
    else singleQuoteChar
  String.mk ([quote] ++ (s.data.map (pyCharEscape quote)).flatten ++ [quote])

/-- Python `str()` of a list of strings, as produced by the f-string
interpolation `{transcript}`. -/
def pyListRepr (transcript : List String) : String :=
  "[" ++ String.intercalate ", " (transcript.map pyStrRepr) ++ "]"

namespace Prompts

/-- `Prompts.get_prompt_v1(transcript)` (prompts.py lines 3–63). -/
def get_prompt_v1 (transcript : List String) : String :=
  promptHead ++ pyListRepr transcript ++ promptTail

end Prompts

/-- C8: the prompt builder is a pure, deterministic function of the
transcript log — it is definable as a Lean function of its argument alone,
so equal inputs give byte-for-byte identical prompts, with no side effects
and no randomness. -/
theorem get_prompt_v1_deterministic (log₁ log₂ : List String) (h : log₁ = log₂) :
    Prompts.get_prompt_v1 log₁ = Prompts.get_prompt_v1 log₂ := by
  rw [h]

theorem get_prompt_v1_deterministic_witness :
    Prompts.get_prompt_v1 ["Speaker 0: Hi."] = Prompts.get_prompt_v1 ["Speaker 0: Hi."] :=
  get_prompt_v1_deterministic ["Speaker 0: Hi."] ["Speaker 0: Hi."] rfl

/-! ## The notes pipeline (api.py, NotesGenerator and GET /notes/)

The LLM client (`llm_service.get_llm_response`) is a parameter mapping the
prompt to either a failure message or a `(notes, total_tokens)` pair.  A
Python `(None, None)` return is `Option.none`; JSON response values are
`JValue`s. -/

inductive JValue where
  | str (s : String)
  | int (n : Int)
  | null
deriving DecidableEq

/-- `NotesGenerator.generate_notes` (api.py lines 199–215): read the
transcripts; if there are none, return `(None, None)`; otherwise build the
prompt with the default prompt strategy (`Prompts.get_prompt_v1`) and ask
the LLM service. -/
def generate_notes (st : Option String)
    (llm : String → Except String (String × Int)) :
    Except String (Option (String × Int)) :=
  let transcripts := read_transcripts st
  if transcripts.isEmpty then .ok none
  else
    match llm (Prompts.get_prompt_v1 transcripts) with
    | .error e => .error e
    | .ok (notes, tokens) => .ok (some (notes, tokens))

/-- The `GET /notes/` handler `get_notes` (api.py lines 311–342), as a
function of the store state, the generated `request_id`, and the LLM
client.  A generation failure becomes the 500 response with detail
`"Failed to generate notes"`; when `notes is None` the handler returns
`{"notes": None}`; otherwise the full three-field record. -/
def get_notes (st : Option String) (request_id : String)
    (llm : String → Except String (String × Int)) :
    Except String (List (String × JValue)) :=
  match generate_notes st llm with
  | .error _ => .error "Failed to generate notes"
  | .ok none => .ok [("notes", JValue.null)]
  | .ok (some (notes, tokens)) =>
    .ok [("notes", JValue.str notes), ("request_id", JValue.str request_id),
         ("tokens_used", JValue.int tokens)]

/-- C6: with an empty transcript store, `generate_notes` returns the
non-error `(None, None)` result, and the result is the same whatever the
LLM client would answer — the Note Generation Client is not invoked. -/
theorem generate_notes_empty_log (st : Option String)
    (h : read_transcripts st = [])
    (llm : String → Except String (String × Int)) :
    generate_notes st llm = Except.ok none
      ∧ ∀ llm₂ : String → Except String (String × Int),
          generate_notes st llm₂ = generate_notes st llm := by
  constructor
  · simp [generate_notes, h]
  · intro llm₂
    simp [generate_notes, h]

theorem generate_notes_empty_log_witness :
    generate_notes none (fun _ => Except.ok ("note", 7)) = Except.ok none
      ∧ ∀ llm₂ : String → Except String (String × Int),
          generate_notes none llm₂
            = generate_notes none (fun _ => Except.ok ("note", 7)) :=
  generate_notes_empty_log none rfl (fun _ => Except.ok ("note", 7))

/-- C4 counterexample: on an empty transcript log the `GET /notes/`
response is `{"notes": null}` alone — its field names are exactly
`["notes"]`, so it does not contain the fields `request_id` and
`tokens_used` that the claim requires of every non-failing response. -/
theorem get_notes_empty_log_missing_fields :
    (get_notes none "rid" (fun _ => Except.ok ("note", 7))).map
        (fun r => r.map Prod.fst) = Except.ok ["notes"]
      ∧ ("request_id" : String) ∉ (["notes"] : List String)
      ∧ ("tokens_used" : String) ∉ (["notes"] : List String) := by
  refine ⟨rfl, by decide, by decide⟩

/-- C4 amended: a non-failing `GET /notes/` response on a non-empty
transcript log carries the three fields `notes` (a string), `request_id`
(a string) and `tokens_used` (an integer); on an empty log the response
carries only the field `notes`, with value null. -/
theorem get_notes_fields (st : Option String) (request_id : String)
    (notes : String) (tokens : Int)
    (h : read_transcripts st ≠ []) :
    get_notes st request_id (fun _ => Except.ok (notes, tokens))
        = Except.ok [("notes", JValue.str notes),
            ("request_id", JValue.str request_id),
            ("tokens_used", JValue.int tokens)]
      ∧ ∀ st₂ : Option String, read_transcripts st₂ = [] →
          get_notes st₂ request_id (fun _ => Except.ok (notes, tokens))
            = Except.ok [("notes", JValue.null)] := by
  constructor
  · have hne : (read_transcripts st).isEmpty = false := by
      cases hr : read_transcripts st with
      | nil => exact absurd hr h
      | cons a l => rfl
    simp [get_notes, generate_notes, hne]
  · intro st₂ h₂
    simp [get_notes, generate_notes, h₂]

theorem get_notes_fields_witness :
    (get_notes (some "Speaker 0: Hi.\n") "rid" (fun _ => Except.ok ("note", 7))
        = Except.ok [("notes", JValue.str "note"),
            ("request_id", JValue.str "rid"), ("tokens_used", JValue.int 7)]
      ∧ ∀ st₂ : Option String, read_transcripts st₂ = [] →
          get_notes st₂ "rid" (fun _ => Except.ok ("note", 7))
            = Except.ok [("notes", JValue.null)]) :=
  get_notes_fields (some "Speaker 0: Hi.\n") "rid" "note" 7 (by decide)

/-! ## The audio ingestion facade (api.py, AudioProcessingFacade)

Durable storage as `process_audio` touches it: the directory of saved
audio files (in creation order) and the transcript log file. -/

structure Storage where
  audio_files : List (String × List UInt8)
  transcript_file : Option String
deriving DecidableEq

/-- `FileStorageStrategy.save_audio` (api.py lines 132–139): write the
audio bytes to a fresh file; the generated unique name is the
`audio_filename` parameter. -/
def save_audio (st : Storage) (audio_bytes : List UInt8)
    (audio_filename : String) : Storage :=
  { st with audio_files := st.audio_files ++ [(audio_filename, audio_bytes)] }

/-- `AudioProcessingFacade.process_audio` (api.py lines 178–189): save the
audio, transcribe it, append the transcript; a transcription failure
propagates as the error, leaving the state as step 1 left it. -/
def process_audio {S : Type} [DecidableEq S] (rnd : S → String) (st : Storage)
    (audio_bytes : List UInt8) (audio_filename : String) (net : NetOutcome S) :
    Except String String × Storage :=
  let st₁ := save_audio st audio_bytes audio_filename
  match transcribe rnd audio_bytes net with
  | .error e => (.error e, st₁)
  | .ok transcript =>
    (.ok transcript,
     { st₁ with transcript_file := save_transcript st₁.transcript_file transcript })

/-- C9: when transcription fails after the audio file was persisted, the
pipeline surfaces the error and the final storage state is exactly the
state after step 1 — the persisted audio file is still on disk with its
original bytes, and nothing else changed (no rollback of the step-1
artifact). -/
theorem process_audio_no_rollback {S : Type} [DecidableEq S] (rnd : S → String)
    (st : Storage) (audio_bytes : List UInt8) (audio_filename : String)
    (net : NetOutcome S) (e : String)
    (h : transcribe rnd audio_bytes net = Except.error e) :
    (process_audio rnd st audio_bytes audio_filename net).1 = Except.error e
      ∧ (process_audio rnd st audio_bytes audio_filename net).2
        = { st with audio_files := st.audio_files ++ [(audio_filename, audio_bytes)] } := by
  constructor <;> simp [process_audio, h, save_audio]

theorem process_audio_no_rollback_witness :
    (process_audio (fun n : Nat => toString n)
        ⟨[], none⟩ [(1 : UInt8)] "f.mp3" NetOutcome.timeout).1
      = Except.error "Transcription request timed out"
      ∧ (process_audio (fun n : Nat => toString n)
          ⟨[], none⟩ [(1 : UInt8)] "f.mp3" NetOutcome.timeout).2
        = ⟨[("f.mp3", [(1 : UInt8)])], none⟩ :=
  process_audio_no_rollback (fun n : Nat => toString n) ⟨[], none⟩
    [(1 : UInt8)] "f.mp3" NetOutcome.timeout "Transcription request timed out" rfl

end MedScribe
